import Mathlib

/-!
Shallow embedding of `Source/Engine/Level/Actors/ModelInstanceActor.cpp`
(FlaxEngine). The component keeps an ordered list of material entries and
forwards registration events to an external scene-rendering registry.
Registry and base-class interactions are modelled as an explicit event
trace; the registry key `_sceneRenderingKey` uses the sentinel `-1` for
"not registered", as in the source.
-/

set_option autoImplicit false

namespace ModelInstance

/-- Modelled from the spec: `MaterialBase` / `MaterialInstance` (external
asset types, not part of the supplied source). A material is either a
shared asset (identified by an id, with a flag recording whether its
blocking load wait reports failure) or a virtual instance created from a
source material by `CreateVirtualInstance`. -/
inductive Material where
  | asset (id : Nat) (loadFailed : Bool)
  | virtualInstance (source : Material)
deriving DecidableEq

/-- Modelled from the spec: `MaterialBase::WaitForLoaded()` is a blocking
load-completion check; it returns `true` exactly when loading failed. A
virtual instance is created in-memory and never fails to load. -/
def Material.waitForLoadedFailed : Material → Bool
  | .asset _ loadFailed => loadFailed
  | .virtualInstance _ => false

/-- Modelled from the spec: `MaterialBase::CreateVirtualInstance()` makes a
fresh per-instance override of the material. -/
def Material.createVirtualInstance (m : Material) : Material :=
  .virtualInstance m

/-- Modelled from the spec: `ModelInstanceEntry` (external value type) — a
material binding for one renderable slot, equality-comparable. The
`material` field mirrors the `Material` reference used by the source
(`none` = null pointer); `visible` stands for the entry's remaining
value-compared payload. A default-constructed entry has no material. -/
structure ModelInstanceEntry where
  material : Option Material := none
  visible : Bool := true
deriving DecidableEq

instance : Inhabited ModelInstanceEntry :=
  ⟨{}⟩

/-- Observable calls the actor makes on its collaborators: the three scene
registry calls (`UpdateActor`, `AddActor`, `RemoveActor`, each carrying the
key used) and the base-class lifecycle delegations. -/
inductive Event where
  | updateActor (key : Int)
  | addActor (key : Int)
  | removeActor (key : Int)
  | baseOnEnable
  | baseOnDisable
deriving DecidableEq

/-- State of `ModelInstanceActor`: the entry list and the registration key
(`-1` = unregistered, as in the source). -/
structure ModelInstanceActor where
  entries : List ModelInstanceEntry
  sceneRenderingKey : Int := -1
deriving DecidableEq

/-- Modelled from the spec: the external `SceneRendering` registry
allocates a registration key on `AddActor` (stored into the actor's key
field) and clears the key back to the sentinel on `RemoveActor`. We model
the allocator as a counter handing out the next free non-negative key. -/
structure SceneRendering where
  nextKey : Nat := 0
deriving DecidableEq

/-- Modelled from the spec: `SceneRendering::AddActor(actor, key)` —
returns the updated registry and the freshly allocated key. -/
def SceneRendering.addActor (r : SceneRendering) : SceneRendering × Int :=
  ({ nextKey := r.nextKey + 1 }, (r.nextKey : Int))

/-- Modelled from the spec: `Array::Resize(n)` — shrinking keeps the first
`n` elements, growing appends default-constructed entries. -/
def resize (l : List ModelInstanceEntry) (n : Nat) : List ModelInstanceEntry :=
  l.take n ++ List.replicate (n - l.length) default

/-- The indexed read `Entries[i]` at an index already known to be in
range (out of range it falls back to the default entry, a case the
operations below never reach). -/
def entryAt (l : List ModelInstanceEntry) (i : Nat) : ModelInstanceEntry :=
  l.getD i default

/-- The `anyChanged` accumulation of the `SetEntries` loop: positionwise
value comparison of the (already resized) old list against the new one,
`anyChanged |= Entries[i] != value[i]`. -/
def entriesDiffer : List ModelInstanceEntry → List ModelInstanceEntry → Bool
  | o :: os, v :: vs => (o != v) || entriesDiffer os vs
  | _, _ => false

/-- `ModelInstanceActor::SetEntries(value)`: resize `Entries` to
`value.Count()`, compare each slot before overwriting it with the new
value (so the final list is exactly `value`), and call
`UpdateActor` once when some compared slot differed and the actor is
registered (`_sceneRenderingKey != -1`). -/
def setEntries (a : ModelInstanceActor) (value : List ModelInstanceEntry) :
    ModelInstanceActor × List Event :=
  if entriesDiffer (resize a.entries value.length) value = true
      ∧ a.sceneRenderingKey ≠ -1 then
    ({ a with entries := value }, [Event.updateActor a.sceneRenderingKey])
  else
    ({ a with entries := value }, [])

/-- Outcome of `SetMaterial`: either the body ran, or the leading
`CHECK(entryIndex >= 0 && entryIndex < Entries.Count())` failed and the
function returned at once. -/
inductive SetMaterialOutcome where
  | ok
  | checkFailed
deriving DecidableEq

/-- `ModelInstanceActor::SetMaterial(entryIndex, material)`: `CHECK` the
index bounds (fail fast, no mutation, on violation); return unchanged when
the slot already holds `material`; otherwise store the new material and
call `UpdateActor` if registered. -/
def setMaterial (a : ModelInstanceActor) (entryIndex : Int)
    (material : Option Material) :
    ModelInstanceActor × List Event × SetMaterialOutcome :=
  if 0 ≤ entryIndex ∧ entryIndex < (a.entries.length : Int) then
    if (entryAt a.entries entryIndex.toNat).material = material then
      (a, [], SetMaterialOutcome.ok)
    else
      if a.sceneRenderingKey ≠ -1 then
        ({ a with
            entries := a.entries.set entryIndex.toNat
              ({ entryAt a.entries entryIndex.toNat with
                 material := material }) },
          [Event.updateActor a.sceneRenderingKey], SetMaterialOutcome.ok)
      else
        ({ a with
            entries := a.entries.set entryIndex.toNat
              ({ entryAt a.entries entryIndex.toNat with
                 material := material }) },
          [], SetMaterialOutcome.ok)
  else
    (a, [], SetMaterialOutcome.checkFailed)

/-- Outcome of `CreateAndSetVirtualMaterialInstance`: the created instance,
the null return of the `CHECK_RETURN(material && !material->WaitForLoaded(),
nullptr)` guard, or a fault of the very first statement
`Entries[entryIndex].Material.Get()` — the function itself performs no
index check, so an out-of-range index reaches the array subscript
unchecked (the array's own bounds assertion aborts before any mutation). -/
inductive CreateOutcome where
  | ok (result : Material)
  | nullResult
  | outOfBoundsAccess
deriving DecidableEq

/-- `ModelInstanceActor::CreateAndSetVirtualMaterialInstance(entryIndex)`:
read the slot's material (unchecked subscript — see `CreateOutcome`),
return null unless the material exists and its blocking load wait
succeeds, otherwise create a virtual instance, store it in the slot, call
`UpdateActor` if registered, and return it. -/
def createAndSetVirtualMaterialInstance (a : ModelInstanceActor)
    (entryIndex : Int) :
    ModelInstanceActor × List Event × CreateOutcome :=
  if 0 ≤ entryIndex ∧ entryIndex < (a.entries.length : Int) then
    match (entryAt a.entries entryIndex.toNat).material with
    | none => (a, [], CreateOutcome.nullResult)
    | some material =>
      if material.waitForLoadedFailed then
        (a, [], CreateOutcome.nullResult)
      else
        if a.sceneRenderingKey ≠ -1 then
          ({ a with
              entries := a.entries.set entryIndex.toNat
                ({ entryAt a.entries entryIndex.toNat with
                   material := some material.createVirtualInstance }) },
            [Event.updateActor a.sceneRenderingKey],
            CreateOutcome.ok material.createVirtualInstance)
        else
          ({ a with
              entries := a.entries.set entryIndex.toNat
                ({ entryAt a.entries entryIndex.toNat with
                   material := some material.createVirtualInstance }) },
            [], CreateOutcome.ok material.createVirtualInstance)
  else
    (a, [], CreateOutcome.outOfBoundsAccess)

/-- `ModelInstanceActor::OnLayerChanged()`: call `UpdateActor` when
registered; no state mutation. -/
def onLayerChanged (a : ModelInstanceActor) : ModelInstanceActor × List Event :=
  if a.sceneRenderingKey ≠ -1 then
    (a, [Event.updateActor a.sceneRenderingKey])
  else
    (a, [])

/-- `ModelInstanceActor::OnEnable()`: `AddActor` first (the registry
stores the new key into `_sceneRenderingKey`), then delegate to
`Actor::OnEnable()`. -/
def onEnable (a : ModelInstanceActor) (r : SceneRendering) :
    ModelInstanceActor × SceneRendering × List Event :=
  ({ a with sceneRenderingKey := r.addActor.2 }, r.addActor.1,
    [Event.addActor r.addActor.2, Event.baseOnEnable])

/-- `ModelInstanceActor::OnDisable()`: delegate to `Actor::OnDisable()`
first, then `RemoveActor` (which clears the key back to the sentinel). -/
def onDisable (a : ModelInstanceActor) (r : SceneRendering) :
    ModelInstanceActor × SceneRendering × List Event :=
  ({ a with sceneRenderingKey := -1 }, r,
    [Event.baseOnDisable, Event.removeActor a.sceneRenderingKey])

/-- Number of `UpdateActor` registry calls in a trace. -/
def countUpdates (evs : List Event) : Nat :=
  (evs.filter fun e => match e with
    | Event.updateActor _ => true
    | _ => false).length

/-- Number of `AddActor` registry calls in a trace. -/
def countAdds (evs : List Event) : Nat :=
  (evs.filter fun e => match e with
    | Event.addActor _ => true
    | _ => false).length

/-- Number of `RemoveActor` registry calls in a trace. -/
def countRemoves (evs : List Event) : Nat :=
  (evs.filter fun e => match e with
    | Event.removeActor _ => true
    | _ => false).length

/- Concrete fixtures used by scenarios and witnesses. -/

/-- A loaded material asset. -/
def matA : Material := Material.asset 1 false

/-- A material asset whose load wait reports failure. -/
def matFail : Material := Material.asset 2 true

/-- Entry bound to `matA`. -/
def entryA : ModelInstanceEntry := { material := some matA }

/-- Entry bound to a second loaded asset. -/
def entryB : ModelInstanceEntry := { material := some (Material.asset 3 false) }

/-- Entry with no material bound. -/
def entryC : ModelInstanceEntry := { material := none }

/- Helper lemmas. -/

theorem resize_length (l : List ModelInstanceEntry) (n : Nat) :
    (resize l n).length = n := by
  simp [resize]
  omega

theorem entriesDiffer_self (l : List ModelInstanceEntry) :
    entriesDiffer l l = false := by
  induction l with
  | nil => rfl
  | cons x xs ih => simp [entriesDiffer, ih]

theorem entriesDiffer_eq_true_iff_ne :
    ∀ old new : List ModelInstanceEntry, old.length = new.length →
      (entriesDiffer old new = true ↔ old ≠ new)
  | [], [], _ => by simp [entriesDiffer]
  | [], _ :: _, h => by simp at h
  | _ :: _, [], h => by simp at h
  | o :: os, v :: vs, h => by
    rw [List.length_cons, List.length_cons, Nat.succ_inj] at h
    simp only [entriesDiffer, Bool.or_eq_true, bne_iff_ne, ne_eq,
      entriesDiffer_eq_true_iff_ne os vs h, List.cons.injEq, not_and]
    constructor
    · rintro (h1 | h2)
      · intro hc _; exact h1 hc
      · intro _ hc; exact h2 hc
    · intro h1
      by_cases hov : o = v
      · right; exact fun hc => h1 hov hc
      · left; exact hov

theorem entryAt_set_self (l : List ModelInstanceEntry) (i : Nat)
    (x : ModelInstanceEntry) (h : i < l.length) :
    entryAt (l.set i x) i = x := by
  unfold entryAt
  rw [List.getD_eq_getElem _ _ (by simpa using h)]
  simp

/-- `SetMaterial` at an in-range index leaves the length and the key alone
and leaves `material` stored in the slot (whether by the no-op
short-circuit or by the assignment). -/
theorem setMaterial_inRange_state (a : ModelInstanceActor) (i : Int)
    (m : Option Material) (h0 : 0 ≤ i) (h1 : i < (a.entries.length : Int)) :
    (setMaterial a i m).1.entries.length = a.entries.length ∧
    (entryAt (setMaterial a i m).1.entries i.toNat).material = m ∧
    (setMaterial a i m).1.sceneRenderingKey = a.sceneRenderingKey := by
  have hi : i.toNat < a.entries.length := by omega
  unfold setMaterial
  rw [if_pos ⟨h0, h1⟩]
  by_cases he : (entryAt a.entries i.toNat).material = m
  · rw [if_pos he]
    exact ⟨rfl, he, rfl⟩
  · rw [if_neg he]
    by_cases hk : a.sceneRenderingKey ≠ -1
    · rw [if_pos hk]
      exact ⟨by simp, by rw [entryAt_set_self _ _ _ hi], rfl⟩
    · rw [if_neg hk]
      exact ⟨by simp, by rw [entryAt_set_self _ _ _ hi], rfl⟩

/-- `SetMaterial` on a slot that already holds `material` returns with the
state untouched and no registry call. -/
theorem setMaterial_noop (a : ModelInstanceActor) (i : Int)
    (m : Option Material) (h0 : 0 ≤ i) (h1 : i < (a.entries.length : Int))
    (h2 : (entryAt a.entries i.toNat).material = m) :
    setMaterial a i m = (a, [], SetMaterialOutcome.ok) := by
  unfold setMaterial
  rw [if_pos ⟨h0, h1⟩, if_pos h2]

/-- Claim C1: `SetEntries(newEntries)` always leaves `Entries` equal to
`newEntries` and the registration key unchanged, and emits exactly one
`UpdateActor` call precisely when some compared element differs by value
equality (the resized old list is not equal to the new list) and the actor
is registered; in the concrete scenario, `Entries = [A, B]` followed by
`SetEntries([A, C])` updates once and yields `[A, C]`, and an immediately
repeated `SetEntries([A, C])` updates zero times. -/
theorem setEntries_replaces_and_updates_once :
    (∀ (a : ModelInstanceActor) (value : List ModelInstanceEntry),
      (setEntries a value).1.entries = value ∧
      (setEntries a value).1.sceneRenderingKey = a.sceneRenderingKey ∧
      countUpdates (setEntries a value).2 =
        if resize a.entries value.length ≠ value ∧ a.sceneRenderingKey ≠ -1
        then 1 else 0) ∧
    ((setEntries { entries := [entryA, entryB], sceneRenderingKey := 5 }
        [entryA, entryC]).1.entries = [entryA, entryC] ∧
      countUpdates (setEntries { entries := [entryA, entryB], sceneRenderingKey := 5 }
        [entryA, entryC]).2 = 1 ∧
      countUpdates (setEntries
        (setEntries { entries := [entryA, entryB], sceneRenderingKey := 5 }
          [entryA, entryC]).1 [entryA, entryC]).2 = 0) := by
  constructor
  · intro a value
    refine ⟨?_, ?_, ?_⟩
    · unfold setEntries; split <;> rfl
    · unfold setEntries; split <;> rfl
    · by_cases hc : resize a.entries value.length = value
      · have hd : entriesDiffer (resize a.entries value.length) value = false := by
          rw [hc]; exact entriesDiffer_self value
        simp [setEntries, hd, hc, entriesDiffer_self, countUpdates]
      · have hd : entriesDiffer (resize a.entries value.length) value = true := by
          rw [entriesDiffer_eq_true_iff_ne _ _ (resize_length a.entries value.length)]
          exact hc
        by_cases hk : a.sceneRenderingKey = -1
        · simp [setEntries, hd, hk, countUpdates]
        · simp [setEntries, hd, hk, hc, countUpdates]
  · decide

/-- Claim C2, evaluated at the failing input: with `Entries` empty, index
`0` is out of range; `SetMaterial` does fail fast through its leading
`CHECK` without mutation, but `CreateAndSetVirtualMaterialInstance`
contains no index check at all — its first statement subscripts the array
out of bounds (modelled as the `outOfBoundsAccess` fault), rather than
failing via an assertion-style check of its own. -/
theorem createAndSet_out_of_range_is_unchecked :
    setMaterial { entries := [], sceneRenderingKey := 5 } 0 none =
      ({ entries := [], sceneRenderingKey := 5 }, [],
        SetMaterialOutcome.checkFailed) ∧
    createAndSetVirtualMaterialInstance
        { entries := [], sceneRenderingKey := 5 } 0 =
      ({ entries := [], sceneRenderingKey := 5 }, [],
        CreateOutcome.outOfBoundsAccess) := by
  decide

/-- Claim C8: every `OnEnable` emits the registry `AddActor` call before
the delegation to `Actor::OnEnable`, and every `OnDisable` emits the
delegation to `Actor::OnDisable` before the registry `RemoveActor` call —
the asymmetric order is exact. -/
theorem lifecycle_delegation_order (a : ModelInstanceActor)
    (r : SceneRendering) :
    (onEnable a r).2.2 = [Event.addActor r.addActor.2, Event.baseOnEnable] ∧
    (onDisable a r).2.2 =
      [Event.baseOnDisable, Event.removeActor a.sceneRenderingKey] :=
  ⟨rfl, rfl⟩

/-- Claim C9: `OnLayerChanged` leaves the whole actor state (entries and
registration key) unchanged and emits exactly one `UpdateActor` call
precisely when the actor is registered. -/
theorem onLayerChanged_pure_update (a : ModelInstanceActor) :
    (onLayerChanged a).1 = a ∧
    countUpdates (onLayerChanged a).2 =
      if a.sceneRenderingKey ≠ -1 then 1 else 0 := by
  unfold onLayerChanged
  by_cases hk : a.sceneRenderingKey ≠ -1
  · rw [if_pos hk, if_pos hk]
    exact ⟨rfl, rfl⟩
  · rw [if_neg hk, if_neg hk]
    exact ⟨rfl, rfl⟩

/-- Claim C3: while unregistered (`_sceneRenderingKey = -1`), no
entry-mutation operation emits any registry call — for an arbitrary index
`j`, whether or not anything changes — while local state updates still
take effect: `SetEntries` stores the new list and `SetMaterial` stores the
new material at an in-range index `i`. -/
theorem unregistered_mutations_silent (a : ModelInstanceActor)
    (value : List ModelInstanceEntry) (i j : Int) (m : Option Material)
    (h : a.sceneRenderingKey = -1)
    (h0 : 0 ≤ i) (h1 : i < (a.entries.length : Int)) :
    (setEntries a value).2 = [] ∧
    (setEntries a value).1.entries = value ∧
    (setMaterial a j m).2.1 = [] ∧
    (createAndSetVirtualMaterialInstance a j).2.1 = [] ∧
    (entryAt (setMaterial a i m).1.entries i.toNat).material = m := by
  refine ⟨?_, ?_, ?_, ?_, (setMaterial_inRange_state a i m h0 h1).2.1⟩
  · simp [setEntries, h]
  · unfold setEntries; split <;> rfl
  · unfold setMaterial
    by_cases hj : 0 ≤ j ∧ j < (a.entries.length : Int)
    · rw [if_pos hj]
      by_cases he : (entryAt a.entries j.toNat).material = m
      · rw [if_pos he]
      · rw [if_neg he, if_neg (by simp [h])]
    · rw [if_neg hj]
  · unfold createAndSetVirtualMaterialInstance
    by_cases hj : 0 ≤ j ∧ j < (a.entries.length : Int)
    · rw [if_pos hj]
      cases hmat : (entryAt a.entries j.toNat).material with
      | none => simp [hmat]
      | some mat =>
        by_cases hl : mat.waitForLoadedFailed = true
        · simp [hmat, hl]
        · simp [hmat, hl, h]
    · rw [if_neg hj]

theorem unregistered_mutations_silent_witness :
    (setEntries { entries := [entryA], sceneRenderingKey := -1 } [entryB]).2
      = [] ∧
    (setEntries { entries := [entryA], sceneRenderingKey := -1 }
      [entryB]).1.entries = [entryB] ∧
    (setMaterial { entries := [entryA], sceneRenderingKey := -1 } 2
      (some matFail)).2.1 = [] ∧
    (createAndSetVirtualMaterialInstance
      { entries := [entryA], sceneRenderingKey := -1 } 2).2.1 = [] ∧
    ((entryAt (setMaterial { entries := [entryA], sceneRenderingKey := -1 } 0
      (some matFail)).1.entries) (Int.toNat 0)).material
      = some matFail :=
  unregistered_mutations_silent
    { entries := [entryA], sceneRenderingKey := -1 }
    [entryB] 0 2 (some matFail) rfl (by decide) (by decide)

/-- Claim C4: at an in-range index whose entry has no material, or whose
material's blocking load wait reports failure, the virtual-instance path
returns null and leaves the whole actor state untouched, with no registry
call. -/
theorem createAndSet_null_keeps_state (a : ModelInstanceActor) (i : Int)
    (h0 : 0 ≤ i) (h1 : i < (a.entries.length : Int))
    (h2 : (entryAt a.entries i.toNat).material = none ∨
      ∃ m, (entryAt a.entries i.toNat).material = some m ∧
        m.waitForLoadedFailed = true) :
    createAndSetVirtualMaterialInstance a i =
      (a, [], CreateOutcome.nullResult) := by
  unfold createAndSetVirtualMaterialInstance
  rw [if_pos ⟨h0, h1⟩]
  rcases h2 with h2 | ⟨m, hm, hl⟩
  · simp [h2]
  · simp [hm, hl]

theorem createAndSet_null_keeps_state_witness :
    createAndSetVirtualMaterialInstance
        { entries := [{ material := some matFail }], sceneRenderingKey := 7 }
        0 =
      ({ entries := [{ material := some matFail }], sceneRenderingKey := 7 },
        [], CreateOutcome.nullResult) :=
  createAndSet_null_keeps_state _ 0 (by decide) (by decide)
    (Or.inr ⟨matFail, by decide, rfl⟩)

/-- Claim C5: at an in-range index whose entry holds a material whose load
wait succeeds, the virtual-instance path returns a fresh virtual instance
of that material, stores it as the slot's material, keeps the key, and
emits exactly one `UpdateActor` call precisely when the actor is
registered. -/
theorem createAndSet_success_updates (a : ModelInstanceActor) (i : Int)
    (m : Material) (h0 : 0 ≤ i) (h1 : i < (a.entries.length : Int))
    (h2 : (entryAt a.entries i.toNat).material = some m)
    (h3 : m.waitForLoadedFailed = false) :
    (createAndSetVirtualMaterialInstance a i).2.2 =
      CreateOutcome.ok m.createVirtualInstance ∧
    (entryAt (createAndSetVirtualMaterialInstance a i).1.entries
        i.toNat).material = some m.createVirtualInstance ∧
    (createAndSetVirtualMaterialInstance a i).1.sceneRenderingKey =
      a.sceneRenderingKey ∧
    countUpdates (createAndSetVirtualMaterialInstance a i).2.1 =
      if a.sceneRenderingKey ≠ -1 then 1 else 0 := by
  have hi : i.toNat < a.entries.length := by omega
  unfold createAndSetVirtualMaterialInstance
  rw [if_pos ⟨h0, h1⟩]
  by_cases hk : a.sceneRenderingKey ≠ -1
  · simp [h2, h3, hk, countUpdates, entryAt_set_self _ _ _ hi]
  · simp [h2, h3, hk, countUpdates, entryAt_set_self _ _ _ hi]

theorem createAndSet_success_updates_witness :
    (createAndSetVirtualMaterialInstance
      { entries := [entryA], sceneRenderingKey := 7 } 0).2.2 =
        CreateOutcome.ok matA.createVirtualInstance ∧
    (entryAt (createAndSetVirtualMaterialInstance
      { entries := [entryA], sceneRenderingKey := 7 } 0).1.entries
        (Int.toNat 0)).material = some matA.createVirtualInstance ∧
    (createAndSetVirtualMaterialInstance
      { entries := [entryA], sceneRenderingKey := 7 } 0).1.sceneRenderingKey
      = 7 ∧
    countUpdates (createAndSetVirtualMaterialInstance
      { entries := [entryA], sceneRenderingKey := 7 } 0).2.1 =
      if (7 : Int) ≠ -1 then 1 else 0 :=
  createAndSet_success_updates _ 0 matA (by decide) (by decide) (by decide)
    rfl

/-- Claim C6: `SetMaterial` at an in-range index whose slot already holds
`material` is a complete no-op (state and trace), any single call emits at
most one `UpdateActor`, and an immediately repeated call with the same
material is always a no-op — so two equal calls trigger at most one
registry update. -/
theorem setMaterial_equal_noop_idempotent (a : ModelInstanceActor) (i : Int)
    (m : Option Material) (h0 : 0 ≤ i)
    (h1 : i < (a.entries.length : Int)) :
    ((entryAt a.entries i.toNat).material = m →
      setMaterial a i m = (a, [], SetMaterialOutcome.ok)) ∧
    countUpdates (setMaterial a i m).2.1 ≤ 1 ∧
    setMaterial (setMaterial a i m).1 i m =
      ((setMaterial a i m).1, [], SetMaterialOutcome.ok) := by
  obtain ⟨hlen, hmat, _⟩ := setMaterial_inRange_state a i m h0 h1
  refine ⟨setMaterial_noop a i m h0 h1, ?_, ?_⟩
  · unfold setMaterial
    rw [if_pos ⟨h0, h1⟩]
    by_cases he : (entryAt a.entries i.toNat).material = m
    · rw [if_pos he]; simp [countUpdates]
    · rw [if_neg he]
      by_cases hk : a.sceneRenderingKey ≠ -1
      · rw [if_pos hk]; simp [countUpdates]
      · rw [if_neg hk]; simp [countUpdates]
  · exact setMaterial_noop (setMaterial a i m).1 i m h0
      (by rw [hlen]; exact h1) hmat

theorem setMaterial_equal_noop_idempotent_witness :
    setMaterial { entries := [entryA], sceneRenderingKey := 7 } 0
        (some matA) =
      ({ entries := [entryA], sceneRenderingKey := 7 }, [],
        SetMaterialOutcome.ok) ∧
    countUpdates (setMaterial { entries := [entryA], sceneRenderingKey := 7 }
      0 (some matA)).2.1 ≤ 1 ∧
    setMaterial (setMaterial { entries := [entryA], sceneRenderingKey := 7 }
        0 (some matA)).1 0 (some matA) =
      ((setMaterial { entries := [entryA], sceneRenderingKey := 7 } 0
        (some matA)).1, [], SetMaterialOutcome.ok) := by
  have h := setMaterial_equal_noop_idempotent
    { entries := [entryA], sceneRenderingKey := 7 } 0 (some matA)
    (by decide) (by decide)
  exact ⟨h.1 rfl, h.2.1, h.2.2⟩

/-- Claim C7: starting unregistered, `OnEnable` registers (the key leaves
the sentinel) and a following `OnDisable` returns the key to the sentinel
`-1`; across the pair the registry receives exactly one `AddActor` and
exactly one `RemoveActor` call. -/
theorem enable_disable_roundtrip (a : ModelInstanceActor)
    (r : SceneRendering) (h : a.sceneRenderingKey = -1) :
    (onEnable a r).1.sceneRenderingKey ≠ -1 ∧
    (onDisable (onEnable a r).1 (onEnable a r).2.1).1.sceneRenderingKey
      = -1 ∧
    countAdds ((onEnable a r).2.2 ++
      (onDisable (onEnable a r).1 (onEnable a r).2.1).2.2) = 1 ∧
    countRemoves ((onEnable a r).2.2 ++
      (onDisable (onEnable a r).1 (onEnable a r).2.1).2.2) = 1 := by
  refine ⟨?_, rfl, rfl, rfl⟩
  show (r.nextKey : Int) ≠ -1
  omega

theorem enable_disable_roundtrip_witness :
    (onEnable { entries := [entryA], sceneRenderingKey := -1 }
      { nextKey := 0 }).1.sceneRenderingKey ≠ -1 ∧
    (onDisable (onEnable { entries := [entryA], sceneRenderingKey := -1 }
        { nextKey := 0 }).1
      (onEnable { entries := [entryA], sceneRenderingKey := -1 }
        { nextKey := 0 }).2.1).1.sceneRenderingKey = -1 ∧
    countAdds ((onEnable { entries := [entryA], sceneRenderingKey := -1 }
        { nextKey := 0 }).2.2 ++
      (onDisable (onEnable { entries := [entryA], sceneRenderingKey := -1 }
          { nextKey := 0 }).1
        (onEnable { entries := [entryA], sceneRenderingKey := -1 }
          { nextKey := 0 }).2.1).2.2) = 1 ∧
    countRemoves ((onEnable { entries := [entryA], sceneRenderingKey := -1 }
        { nextKey := 0 }).2.2 ++
      (onDisable (onEnable { entries := [entryA], sceneRenderingKey := -1 }
          { nextKey := 0 }).1
        (onEnable { entries := [entryA], sceneRenderingKey := -1 }
          { nextKey := 0 }).2.1).2.2) = 1 :=
  enable_disable_roundtrip { entries := [entryA], sceneRenderingKey := -1 }
    { nextKey := 0 } rfl

/-- Claim C10: for a registered actor, `SetEntries` with a strict prefix
of the current list shrinks `Entries` to that prefix with no registry
update, and growing the list by default-constructed entries likewise
triggers no update — change detection only scans the indices of the new
list after the resize, so a pure length change is never detected. -/
theorem setEntries_pure_length_change_silent (a : ModelInstanceActor)
    (value : List ModelInstanceEntry) (k : Nat)
    (hreg : a.sceneRenderingKey ≠ -1)
    (hlt : value.length < a.entries.length)
    (hpre : a.entries.take value.length = value) :
    setEntries a value = ({ a with entries := value }, []) ∧
    setEntries a (a.entries ++ List.replicate k default) =
      ({ a with entries := a.entries ++ List.replicate k default }, []) := by
  constructor
  · have hr : resize a.entries value.length = value := by
      unfold resize
      rw [Nat.sub_eq_zero_of_le (le_of_lt hlt), List.replicate_zero,
        List.append_nil, hpre]
    unfold setEntries
    rw [hr, if_neg (by simp [entriesDiffer_self])]
  · have hr : resize a.entries (a.entries ++ List.replicate k default).length
        = a.entries ++ List.replicate k default := by
      unfold resize
      rw [List.length_append, List.length_replicate,
        List.take_of_length_le (Nat.le_add_right _ _),
        Nat.add_sub_cancel_left]
    unfold setEntries
    rw [hr, if_neg (by simp [entriesDiffer_self])]

theorem setEntries_pure_length_change_silent_witness :
    setEntries { entries := [entryA, entryB], sceneRenderingKey := 7 }
        [entryA] =
      ({ entries := [entryA], sceneRenderingKey := 7 }, []) ∧
    setEntries { entries := [entryA, entryB], sceneRenderingKey := 7 }
        ([entryA, entryB] ++ List.replicate 1 default) =
      ({ entries := [entryA, entryB] ++ List.replicate 1 default,
          sceneRenderingKey := 7 }, []) :=
  setEntries_pure_length_change_silent
    { entries := [entryA, entryB], sceneRenderingKey := 7 }
    [entryA] 1 (by decide) (by decide) rfl

end ModelInstance
